import Mathlib

/-!
# battery_exporter: device-interface protocol layer

A shallow embedding of `battery/battery.go`, `battery/setupapi.go` and the
collection loop of `main.go`.

Conventions of the embedding:

* a UTF-16 code unit (`uint16`) is a `Nat`; `uint32` is a `Nat`, `int32` and `int`
  are `Int`; wrap-around is written with an explicit `%` where the source
  computes in a fixed width;
* a Go `error` coming from the OS is its error number, a `Nat`;
* a run-time panic (a slice index out of range, a gauge label that is not valid
  UTF-8) is `none`;
* the operating system is an explicit `World` (the handles this process holds
  open) together with an `Env` of outcome functions, one per system call;
* `float64` arithmetic is read over `ℚ`.
-/

namespace Battery

/-! ## Unique-ID escaping (`battery.go`, `escape`) -/

/-- The `for i := 0; i < length; i++` loop of `escape`: `k` iterations remain,
`i` is the loop index and `id` the slice built so far.  Reading `name[i]`
outside the buffer panics. -/
def escapeLoop (name : List Nat) : Nat → Nat → List Nat → Option (List Nat)
  | 0, _, id => some id
  | k + 1, i, id =>
    match name[i]? with
    | none => none
    | some c =>
      if c < 0x20 then
        -- append(id, uint16('%'), uint16('0'+c/16), uint16('0'+c%16))
        escapeLoop name k (i + 1) (id ++ [0x25, (0x30 + c / 16) % 65536, (0x30 + c % 16) % 65536])
      else
        escapeLoop name k (i + 1) (id ++ [c])

/-- Go `escape(name []uint16, length int) []uint16`.  A non-positive `length`
runs the loop zero times. -/
def escape (name : List Nat) (length : Int) : Option (List Nat) :=
  (escapeLoop name length.toNat 0 []).map (fun id => id ++ [0])

/-- The image of one code unit as the specification words it: a three-unit
escape for a control unit, the unit itself otherwise. -/
def escapeUnit (c : Nat) : List Nat :=
  if c < 0x20 then [0x25, 0x30 + c / 16, 0x30 + c % 16] else [c]

/-- The specification's reading of `escape`: the images of the first `n`
units in order, then one terminating 0 unit. -/
def escapeSpec (name : List Nat) (n : Nat) : List Nat :=
  (name.take n).flatMap escapeUnit ++ [0]

/-- The cut that `syscall.UTF16ToString` makes before decoding: the units in
front of the first 0 unit. -/
def utf16Cut (s : List Nat) : List Nat :=
  s.takeWhile (fun v => v != 0)

/-! ## Control codes and unit conversion (`battery.go`) -/

/-- Go `uint32(x)` of a non-negative constant. -/
def toUint32 (x : Nat) : Nat := x % 2 ^ 32

def IOCTL_BATTERY_QUERY_TAG : Nat :=
  toUint32 ((0x29 <<< 16) ||| (1 <<< 14) ||| (0x10 <<< 2))

def IOCTL_BATTERY_QUERY_INFORMATION : Nat :=
  toUint32 ((0x29 <<< 16) ||| (1 <<< 14) ||| (0x11 <<< 2))

def IOCTL_BATTERY_QUERY_STATUS : Nat :=
  toUint32 ((0x29 <<< 16) ||| (1 <<< 14) ||| (0x13 <<< 2))

/-- The one encoding the three codes are said to follow. -/
def ctlCode (deviceType access function method : Nat) : Nat :=
  (deviceType <<< 16) ||| (access <<< 14) ||| (function <<< 2) ||| method

/-- Go `TemperatureToCelcius(k10 uint32) float64`, with the `float64`
operations read over the rationals. -/
def TemperatureToCelcius (k10 : Nat) : ℚ :=
  ((k10 : ℚ) - 2731.6) / 10.0

/-! ## Structure layouts (`battery.go`) -/

/-- The field types that occur in `BATTERY_INFORMATION`. -/
inductive FieldType where
  | int32
  | byte
  | bytes (n : Nat)
  deriving DecidableEq, Repr

/-- Width of a field in bytes. -/
def FieldType.width : FieldType → Nat
  | .int32 => 4
  | .byte => 1
  | .bytes n => n

/-- Alignment of a field in bytes, as the Go compiler lays structs out. -/
def FieldType.align : FieldType → Nat
  | .int32 => 4
  | .byte => 1
  | .bytes _ => 1

/-- Fields of `type BATTERY_INFORMATION struct`, in declaration order. -/
def BATTERY_INFORMATION_fields : List (String × FieldType) :=
  [ ("Capabilities", .int32),
    ("Technology", .byte),
    ("Reserved", .bytes 3),
    ("Chemistry", .bytes 4),
    ("DesignedCapacity", .int32),
    ("FullChargedCapacity", .int32),
    ("DefaultAlert1", .int32),
    ("DefaultAlert2", .int32),
    ("CriticalBias", .int32),
    ("CycleCount", .int32) ]

/-- Sum of the declared field widths, no padding. -/
def packedSize (fs : List (String × FieldType)) : Nat :=
  (fs.map (fun f => f.2.width)).sum

/-- Round `off` up to a multiple of `a`. -/
def alignUp (off a : Nat) : Nat := (off + a - 1) / a * a

/-- Go `unsafe.Sizeof` of a struct: every field starts at the next multiple
of its alignment and the total is rounded up to the largest alignment. -/
def sizeofStruct (fs : List (String × FieldType)) : Nat :=
  alignUp (fs.foldl (fun off f => alignUp off f.2.align + f.2.width) 0)
    ((fs.map (fun f => f.2.align)).foldl max 1)

/-- The 32-bit fields declared after the field called `after`. -/
def int32FieldsAfter (after : String) (fs : List (String × FieldType)) : List String :=
  (((fs.dropWhile (fun f => f.1 != after)).drop 1).filter
    (fun f => f.2 == FieldType.int32)).map (fun f => f.1)

/-! ## The operating system seen by `battery.go` -/

/-- The handles this process holds open, most recent first, one entry for
every open that has not been closed yet. -/
structure World where
  openHandles : List Nat
  deriving DecidableEq, Repr

/-- What a `LazyProc.Call` returns: `r1` and the error number `e1`. -/
structure CallResult where
  r1 : Nat
  e1 : Nat
  deriving DecidableEq, Repr

structure Handle where
  BatteryHandle : Nat
  BatteryTag : Nat
  deriving DecidableEq, Repr

structure BATTERY_INFORMATION where
  Capabilities : Int
  Technology : Nat
  Reserved : List Nat
  Chemistry : List Nat
  DesignedCapacity : Int
  FullChargedCapacity : Int
  DefaultAlert1 : Int
  DefaultAlert2 : Int
  CriticalBias : Int
  CycleCount : Int
  deriving DecidableEq, Repr

structure BATTERY_STATUS where
  PowerState : Nat
  Capacity : Nat
  Voltage : Nat
  Rate : Int
  deriving DecidableEq, Repr

structure BATTERY_QUERY_INFORMATION where
  BatteryTag : Nat
  InformationLevel : Int
  AtRate : Int
  deriving DecidableEq, Repr

structure BATTERY_WAIT_STATUS where
  BatteryTag : Nat
  Timeout : Nat
  PowerState : Nat
  LowCapacity : Nat
  HighCapacity : Nat
  deriving DecidableEq, Repr

def BatteryInformation : Int := 0
def BatteryTemperature : Int := 2
def BatteryUniqueID : Int := 7

/-- Outcome of every system call the package makes, as a function of the
state of the system and of the arguments that vary.  An output parameter the
call fills in is part of the outcome. -/
structure Env where
  /-- `SetupDiGetClassDevsW` for the battery class. -/
  classDevsW : World → CallResult
  /-- `SetupDiEnumDeviceInterfaces hdevInfo memberIndex`, with the interface
  record it writes. -/
  enumDeviceInterfaces : World → Nat → Nat → CallResult × Nat
  /-- `SetupDiGetDeviceInterfaceDetailW hdevInfo interfaceData`, with the
  device path it writes. -/
  deviceInterfaceDetailW : World → Nat → Nat → CallResult × List Nat
  /-- `syscall.CreateFile path`: an error or the new handle. -/
  createFile : World → List Nat → Except Nat Nat
  /-- `DeviceIoControl handle code timeoutMs` for the tag query. -/
  ioctlTag : World → Nat → Nat → Nat → Except Nat Nat
  /-- `DeviceIoControl handle code query` answering a `BATTERY_INFORMATION`. -/
  ioctlInfo : World → Nat → Nat → BATTERY_QUERY_INFORMATION → Except Nat BATTERY_INFORMATION
  /-- `DeviceIoControl handle code query` answering one `uint32`. -/
  ioctlTemperature : World → Nat → Nat → BATTERY_QUERY_INFORMATION → Except Nat Nat
  /-- `DeviceIoControl handle code query` for the unique ID: the units written
  to the buffer and the byte count reported. -/
  ioctlUniqueId : World → Nat → Nat → BATTERY_QUERY_INFORMATION → Except Nat (List Nat × Nat)
  /-- `DeviceIoControl handle code query` answering a `BATTERY_STATUS`. -/
  ioctlStatus : World → Nat → Nat → BATTERY_WAIT_STATUS → Except Nat BATTERY_STATUS

/-- A successful open adds the handle to the open set. -/
def World.opened (w : World) (h : Nat) : World :=
  { openHandles := h :: w.openHandles }

/-- `syscall.CloseHandle`: one open of `h` is given back. -/
def CloseHandle (w : World) (h : Nat) : World :=
  { openHandles := w.openHandles.erase h }

/-! ## `setupapi.go` -/

/-- Go `SetupDiGetClassDevs`: `r1 == 0` is the failure; any other `r1` is the
handle of the device information set the call has created. -/
def SetupDiGetClassDevs (env : Env) (w : World) : Except Nat Nat × World :=
  let r := env.classDevsW w
  if r.r1 = 0 then (.error r.e1, w) else (.ok r.r1, w.opened r.r1)

/-- Go `SetupDiEnumDeviceInterfaces`; the interface record comes with the
success. -/
def SetupDiEnumDeviceInterfaces (env : Env) (w : World) (hdevInfo memberIndex : Nat) :
    Except Nat Nat :=
  let r := env.enumDeviceInterfaces w hdevInfo memberIndex
  if r.1.r1 = 0 then .error r.1.e1 else .ok r.2

/-- Go `SetupDiGetDeviceInterfaceDetail`; the device path comes with the
success. -/
def SetupDiGetDeviceInterfaceDetail (env : Env) (w : World) (hdevInfo ifData : Nat) :
    Except Nat (List Nat) :=
  let r := env.deviceInterfaceDetailW w hdevInfo ifData
  if r.1.r1 = 0 then .error r.1.e1 else .ok r.2

/-! ## Handle acquisition (`battery.go`) -/

/-- Go `getBatteryHandle(index uint32)`. -/
def getBatteryHandle (env : Env) (w : World) (index : Nat) : Except Nat Nat × World :=
  match SetupDiGetClassDevs env w with
  | (.error err, w1) => (.error err, w1)
  | (.ok deviceHandle, w1) =>
    match SetupDiEnumDeviceInterfaces env w1 deviceHandle index with
    | .error err => (.error err, w1)
    | .ok deviceInterfaceData =>
      match SetupDiGetDeviceInterfaceDetail env w1 deviceHandle deviceInterfaceData with
      | .error err => (.error err, w1)
      | .ok devicePath =>
        match env.createFile w1 devicePath with
        | .error err => (.error err, w1)
        | .ok batteryHandle => (.ok batteryHandle, w1.opened batteryHandle)

/-- Go `getBatteryTag`. -/
def getBatteryTag (env : Env) (w : World) (batteryHandle : Nat) : Except Nat Nat :=
  match env.ioctlTag w batteryHandle IOCTL_BATTERY_QUERY_TAG 0 with
  | .error err => .error err
  | .ok tag => .ok tag

/-- Go `OpenBatteryHandle(index int)`; `uint32(index)` wraps. -/
def OpenBatteryHandle (env : Env) (w : World) (index : Int) : Except Nat Handle × World :=
  match getBatteryHandle env w (index % 2 ^ 32).toNat with
  | (.error err, w1) => (.error err, w1)
  | (.ok handle, w1) =>
    match getBatteryTag env w1 handle with
    | .error err => (.error err, CloseHandle w1 handle)
    | .ok tag => (.ok { BatteryHandle := handle, BatteryTag := tag }, w1)

/-- Go `CloseBatteryHandle`. -/
def CloseBatteryHandle (w : World) (handle : Handle) : World :=
  CloseHandle w handle.BatteryHandle

/-! ## Queries (`battery.go`) -/

/-- Go `GetBatteryInfo`. -/
def GetBatteryInfo (env : Env) (w : World) (handle : Handle) : Except Nat BATTERY_INFORMATION :=
  env.ioctlInfo w handle.BatteryHandle IOCTL_BATTERY_QUERY_INFORMATION
    { BatteryTag := handle.BatteryTag, InformationLevel := BatteryInformation, AtRate := 0 }

/-- Go `GetBatteryTemperature`. -/
def GetBatteryTemperature (env : Env) (w : World) (handle : Handle) : Except Nat ℚ :=
  match env.ioctlTemperature w handle.BatteryHandle IOCTL_BATTERY_QUERY_INFORMATION
      { BatteryTag := handle.BatteryTag, InformationLevel := BatteryTemperature, AtRate := 0 } with
  | .error err => .error err
  | .ok temp => .ok (TemperatureToCelcius temp)

/-- Go `GetBatteryStatus`. -/
def GetBatteryStatus (env : Env) (w : World) (handle : Handle) : Except Nat BATTERY_STATUS :=
  env.ioctlStatus w handle.BatteryHandle IOCTL_BATTERY_QUERY_STATUS
    { BatteryTag := handle.BatteryTag, Timeout := 0, PowerState := 0, LowCapacity := 0,
      HighCapacity := 0 }

/-- The 256-unit zeroed buffer of `GetBatteryUniqueId` after the call has
written `written` at its start. -/
def nameBuffer (written : List Nat) : List Nat :=
  written.take 256 ++ List.replicate (256 - written.length) 0

/-- The tail of `GetBatteryUniqueId`: `escape(name, int(numOutBytes/2)-1)` and
the string conversion.  The identifier string is given by the code units it is
decoded from. -/
def uniqueIdString (name : List Nat) (numOutBytes : Nat) : Option (List Nat) :=
  (escape name (((numOutBytes / 2 : Nat) : Int) - 1)).map utf16Cut

/-- Go `GetBatteryUniqueId`; `none` is a panic. -/
def GetBatteryUniqueId (env : Env) (w : World) (handle : Handle) :
    Option (Except Nat (List Nat)) :=
  match env.ioctlUniqueId w handle.BatteryHandle IOCTL_BATTERY_QUERY_INFORMATION
      { BatteryTag := handle.BatteryTag, InformationLevel := BatteryUniqueID, AtRate := 0 } with
  | .error err => some (.error err)
  | .ok (written, numOutBytes) =>
    (uniqueIdString (nameBuffer written) (numOutBytes % 2 ^ 32)).map Except.ok

/-! ## The exporter (`main.go`) -/

/-- The map `g_BatteryHandles`: identifier string to handle, keys distinct.
The order of the list is the order in which `range` visits the map. -/
abbrev Registry := List (List Nat × Handle)

/-- Go `m[k] = v`: overwrite the entry of `k`, or add one. -/
def mapSet (m : Registry) (k : List Nat) (v : Handle) : Registry :=
  if m.any (fun e => e.1 == k) then m.map (fun e => if e.1 == k then (k, v) else e)
  else m ++ [(k, v)]

/-- Go `strconv.Itoa(i)`, as code units. -/
def itoa (i : Nat) : List Nat :=
  (Nat.toDigits 10 i).map Char.toNat

/-- One iteration of the loop of `discoverBatteries`; logging is left out. -/
def discoverOne (env : Env) (i : Nat) (st : World × Registry) : Option (World × Registry) :=
  match OpenBatteryHandle env st.1 (i : Int) with
  | (.error _, w1) => some (w1, st.2)
  | (.ok handle, w1) =>
    match GetBatteryUniqueId env w1 handle with
    | none => none
    | some (.error _) => some (w1, mapSet st.2 (itoa i) handle)
    | some (.ok id) => some (w1, mapSet st.2 id handle)

/-- The loop `for i := 0; i < 10; i++` with `k` iterations remaining. -/
def discoverLoop (env : Env) : Nat → Nat → World × Registry → Option (World × Registry)
  | 0, _, st => some st
  | k + 1, i, st =>
    match discoverOne env i st with
    | none => none
    | some st1 => discoverLoop env k (i + 1) st1

/-- Go `discoverBatteries`. -/
def discoverBatteries (env : Env) (w : World) (reg : Registry) : Option (World × Registry) :=
  discoverLoop env 10 0 (w, reg)

/-- The eight gauge vectors: metric name and `id` label to the value
exported, `none` when the vector has no child for that label. -/
abbrev Gauges := String → List Nat → Option ℚ

/-- The vectors right after registration: no child for any label. -/
def noGauges : Gauges := fun _ _ => none

/-- Whether the identifier string is valid UTF-8.  The string conversion keeps
an unpaired surrogate unit as it is (WTF-8, Go 1.21 and later), so the string
is valid exactly when every surrogate unit is part of a high-low pair. -/
def validLabel : List Nat → Bool
  | [] => true
  | [u] => !(decide (0xD800 ≤ u) && decide (u < 0xE000))
  | u :: v :: rest =>
    if 0xD800 ≤ u ∧ u < 0xDC00 then
      (decide (0xDC00 ≤ v) && decide (v < 0xE000)) && validLabel rest
    else if 0xDC00 ≤ u ∧ u < 0xE000 then false
    else validLabel (v :: rest)

/-- The gauges once the child of `id` in the vector called `name` holds `v`. -/
def Gauges.put (g : Gauges) (name : String) (id : List Nat) (v : ℚ) : Gauges :=
  fun n i => if n = name ∧ i = id then some v else g n i

/-- Prometheus `vec.With(Labels{"id": id}).Set(v)` on the vector called `name`.
`With` panics (`none`) on a label value that is not valid UTF-8. -/
def Gauges.set (g : Gauges) (name : String) (id : List Nat) (v : ℚ) : Option Gauges :=
  if validLabel id then some (g.put name id v) else none

/-- The body of the loop of `collectBattery` for one map entry; `none` is a
panic. -/
def collectOne (env : Env) (w : World) (g : Gauges) (e : List Nat × Handle) : Option Gauges :=
  let id := e.1
  let handle := e.2
  let r1 : Option Gauges :=
    match GetBatteryInfo env w handle with
    | .error _ => some g
    | .ok info =>
      (Gauges.set g "battery_designed_capacity" id ((info.DesignedCapacity : ℚ) / 1000.0)).bind
        fun a =>
      (Gauges.set a "battery_full_charged_capacity" id
        ((info.FullChargedCapacity : ℚ) / 1000.0)).bind fun b =>
      Gauges.set b "battery_cycle" id (info.CycleCount : ℚ)
  r1.bind fun g1 =>
  let r2 : Option Gauges :=
    match GetBatteryStatus env w handle with
    | .error _ => some g1
    | .ok status =>
      (Gauges.set g1 "battery_power_state" id (status.PowerState : ℚ)).bind fun a =>
      (Gauges.set a "battery_available" id ((status.Capacity : ℚ) / 1000.0)).bind fun b =>
      (Gauges.set b "battery_voltage" id ((status.Voltage : ℚ) / 1000.0)).bind fun c =>
      Gauges.set c "battery_rate" id ((status.Rate : ℚ) / 1000.0)
  r2.bind fun g2 =>
  match GetBatteryTemperature env w handle with
  | .error _ => some g2
  | .ok temp => Gauges.set g2 "battery_temperature" id temp

/-- Go `collectBattery`: the loop over `g_BatteryHandles`; a panic in one
iteration ends the loop. -/
def collectBattery (env : Env) (w : World) : Registry → Gauges → Option Gauges
  | [], g => some g
  | e :: rest, g =>
    match collectOne env w g e with
    | none => none
    | some g1 => collectBattery env w rest g1

/-- What the loop body writes when no `With` panics. -/
def collectOnePure (env : Env) (w : World) (g : Gauges) (e : List Nat × Handle) : Gauges :=
  let id := e.1
  let handle := e.2
  let g1 :=
    match GetBatteryInfo env w handle with
    | .error _ => g
    | .ok info =>
      ((g.put "battery_designed_capacity" id ((info.DesignedCapacity : ℚ) / 1000.0)).put
        "battery_full_charged_capacity" id ((info.FullChargedCapacity : ℚ) / 1000.0)).put
        "battery_cycle" id (info.CycleCount : ℚ)
  let g2 :=
    match GetBatteryStatus env w handle with
    | .error _ => g1
    | .ok status =>
      (((g1.put "battery_power_state" id (status.PowerState : ℚ)).put
        "battery_available" id ((status.Capacity : ℚ) / 1000.0)).put
        "battery_voltage" id ((status.Voltage : ℚ) / 1000.0)).put
        "battery_rate" id ((status.Rate : ℚ) / 1000.0)
  match GetBatteryTemperature env w handle with
  | .error _ => g2
  | .ok temp => g2.put "battery_temperature" id temp

/-- What the whole loop writes when no `With` panics. -/
def collectBatteryPure (env : Env) (w : World) (reg : Registry) (g : Gauges) : Gauges :=
  reg.foldl (collectOnePure env w) g

/-! ## Concrete systems used as test inputs -/

/-- A system with two batteries whose raw unique identifiers are the one-unit
sequence `[0x05]` and the three-unit sequence `['%','0','5']`. -/
def twoBatteries : Env where
  classDevsW := fun w => { r1 := 1000 + w.openHandles.length, e1 := 0 }
  enumDeviceInterfaces := fun _ _ index =>
    if index < 2 then ({ r1 := 1, e1 := 0 }, index) else ({ r1 := 0, e1 := 259 }, 0)
  deviceInterfaceDetailW := fun _ _ ifData => ({ r1 := 1, e1 := 0 }, [0x42, 0x30 + ifData])
  createFile := fun _ path => .ok (2000 + path.getD 1 0)
  ioctlTag := fun _ h _ _ => .ok (h - 2000)
  ioctlInfo := fun _ _ _ _ => .error 1
  ioctlTemperature := fun _ _ _ _ => .error 1
  ioctlUniqueId := fun _ h _ _ =>
    if h = 2048 then .ok ([0x05, 0], 4) else .ok ([0x25, 0x30, 0x35, 0], 8)
  ioctlStatus := fun _ _ _ _ => .error 1

/-- A system in which every step up to `CreateFile` succeeds and the tag
handshake is rejected. -/
def tagRejected : Env where
  classDevsW := fun _ => { r1 := 7, e1 := 0 }
  enumDeviceInterfaces := fun _ _ _ => ({ r1 := 1, e1 := 0 }, 0)
  deviceInterfaceDetailW := fun _ _ _ => ({ r1 := 1, e1 := 0 }, [0x42])
  createFile := fun _ _ => .ok 9
  ioctlTag := fun _ _ _ _ => .error 31
  ioctlInfo := fun _ _ _ _ => .error 1
  ioctlTemperature := fun _ _ _ _ => .error 1
  ioctlUniqueId := fun _ _ _ _ => .error 1
  ioctlStatus := fun _ _ _ _ => .error 1

/-- A system in which the enumeration handle is obtained and the enumeration
of the interface then fails. -/
def enumFails : Env where
  classDevsW := fun _ => { r1 := 7, e1 := 0 }
  enumDeviceInterfaces := fun _ _ _ => ({ r1 := 0, e1 := 259 }, 0)
  deviceInterfaceDetailW := fun _ _ _ => ({ r1 := 1, e1 := 0 }, [0x42])
  createFile := fun _ _ => .ok 9
  ioctlTag := fun _ _ _ _ => .ok 1
  ioctlInfo := fun _ _ _ _ => .error 1
  ioctlTemperature := fun _ _ _ _ => .error 1
  ioctlUniqueId := fun _ _ _ _ => .error 1
  ioctlStatus := fun _ _ _ _ => .error 1

/-- A system in which acquisition succeeds with handle 9 and tag 5. -/
def allSucceed : Env where
  classDevsW := fun _ => { r1 := 7, e1 := 0 }
  enumDeviceInterfaces := fun _ _ _ => ({ r1 := 1, e1 := 0 }, 0)
  deviceInterfaceDetailW := fun _ _ _ => ({ r1 := 1, e1 := 0 }, [0x42])
  createFile := fun _ _ => .ok 9
  ioctlTag := fun _ _ _ _ => .ok 5
  ioctlInfo := fun _ _ _ _ => .error 1
  ioctlTemperature := fun _ _ _ _ => .error 1
  ioctlUniqueId := fun _ _ _ _ => .error 1
  ioctlStatus := fun _ _ _ _ => .error 1

/-- The nameplate data answered by `statusFails`. -/
def sampleInfo : BATTERY_INFORMATION where
  Capabilities := 0
  Technology := 1
  Reserved := [0, 0, 0]
  Chemistry := [0x4C, 0x49, 0x4F, 0x4E]
  DesignedCapacity := 50000
  FullChargedCapacity := 42000
  DefaultAlert1 := 0
  DefaultAlert2 := 0
  CriticalBias := 0
  CycleCount := 120

/-- A system whose information and temperature queries succeed and whose
status query fails. -/
def statusFails : Env where
  classDevsW := fun _ => { r1 := 7, e1 := 0 }
  enumDeviceInterfaces := fun _ _ _ => ({ r1 := 1, e1 := 0 }, 0)
  deviceInterfaceDetailW := fun _ _ _ => ({ r1 := 1, e1 := 0 }, [0x42])
  createFile := fun _ _ => .ok 9
  ioctlTag := fun _ _ _ _ => .ok 5
  ioctlInfo := fun _ _ _ _ => .ok sampleInfo
  ioctlTemperature := fun _ _ _ _ => .ok 2982
  ioctlUniqueId := fun _ _ _ _ => .error 1
  ioctlStatus := fun _ _ _ _ => .error 31

/-- Gauges as an earlier cycle with a successful status query left them for
the battery `"A"`. -/
def staleGauges : Gauges :=
  (((Gauges.put noGauges "battery_power_state" [0x41] 1).put
    "battery_available" [0x41] 40).put "battery_voltage" [0x41] 12).put
    "battery_rate" [0x41] (-5)

/-- A system with one battery, at index 0, whose raw unique identifier is the
unpaired surrogate unit 0xD800; its information and temperature queries
succeed and its status query fails. -/
def surrogateId : Env where
  classDevsW := fun _ => { r1 := 7, e1 := 0 }
  enumDeviceInterfaces := fun _ _ index =>
    if index = 0 then ({ r1 := 1, e1 := 0 }, 0) else ({ r1 := 0, e1 := 259 }, 0)
  deviceInterfaceDetailW := fun _ _ _ => ({ r1 := 1, e1 := 0 }, [0x42])
  createFile := fun _ _ => .ok 9
  ioctlTag := fun _ _ _ _ => .ok 5
  ioctlInfo := fun _ _ _ _ => .ok sampleInfo
  ioctlTemperature := fun _ _ _ _ => .ok 2982
  ioctlUniqueId := fun _ _ _ _ => .ok ([0xD800, 0], 4)
  ioctlStatus := fun _ _ _ _ => .error 31

end Battery

namespace Battery

/-! ## Escaping: loop invariant and consequences -/

theorem escapeUnit_eq_wrapped (c : Nat) (h : c < 0x20) :
    [0x25, (0x30 + c / 16) % 65536, (0x30 + c % 16) % 65536] = escapeUnit c := by
  have h1 : (0x30 + c / 16) % 65536 = 0x30 + c / 16 := by omega
  have h2 : (0x30 + c % 16) % 65536 = 0x30 + c % 16 := by omega
  simp [escapeUnit, h, h1, h2]

theorem escapeLoop_eq (name : List Nat) :
    ∀ (k i : Nat) (id : List Nat), i + k ≤ name.length →
      escapeLoop name k i id = some (id ++ ((name.drop i).take k).flatMap escapeUnit) := by
  intro k
  induction k with
  | zero => intro i id _; simp [escapeLoop]
  | succ k ih =>
    intro i id h
    have hi : i < name.length := by omega
    have hget : name[i]? = some name[i] := List.getElem?_eq_getElem hi
    have hdrop : name.drop i = name[i] :: name.drop (i + 1) := List.drop_eq_getElem_cons hi
    rw [escapeLoop, hget]
    simp only []
    by_cases hc : name[i] < 0x20
    · rw [if_pos hc, ih (i + 1) _ (by omega), escapeUnit_eq_wrapped _ hc, hdrop,
        List.take_succ_cons, List.flatMap_cons, List.append_assoc]
    · have hu : escapeUnit name[i] = [name[i]] := by simp [escapeUnit, hc]
      rw [if_neg hc, ih (i + 1) _ (by omega), hdrop, List.take_succ_cons, List.flatMap_cons,
        hu, List.append_assoc]

theorem escape_eq_spec (name : List Nat) (n : Nat) (h : n ≤ name.length) :
    escape name (n : Int) = some (escapeSpec name n) := by
  unfold escape escapeSpec
  rw [Int.toNat_ofNat, escapeLoop_eq name n 0 [] (by omega)]
  simp

theorem flatMap_escapeUnit_printable (s : List Nat) (h : ∀ u ∈ s, 0x20 ≤ u) :
    s.flatMap escapeUnit = s := by
  induction s with
  | nil => rfl
  | cons c t ih =>
    have hc : ¬ c < 0x20 := by
      have := h c (List.mem_cons_self c t)
      omega
    have ht : ∀ u ∈ t, 0x20 ≤ u := fun u hu => h u (List.mem_cons_of_mem c hu)
    simp [List.flatMap_cons, escapeUnit, hc, ih ht]

theorem escapeUnit_ge (c u : Nat) (hu : u ∈ escapeUnit c) : 0x20 ≤ u := by
  unfold escapeUnit at hu
  by_cases hc : c < 0x20
  · rw [if_pos hc] at hu
    simp only [List.mem_cons, List.mem_singleton, List.not_mem_nil, or_false] at hu
    omega
  · rw [if_neg hc] at hu
    simp only [List.mem_singleton] at hu
    omega

theorem flatMap_escapeUnit_ge (l : List Nat) : ∀ u ∈ l.flatMap escapeUnit, 0x20 ≤ u := by
  intro u hu
  rw [List.mem_flatMap] at hu
  obtain ⟨c, _, hc⟩ := hu
  exact escapeUnit_ge c u hc

theorem flatMap_escapeUnit_length (l : List Nat) :
    (l.flatMap escapeUnit).length = l.length + 2 * l.countP (fun c => decide (c < 0x20)) := by
  induction l with
  | nil => rfl
  | cons c t ih =>
    rw [List.flatMap_cons, List.length_append, ih, List.countP_cons, List.length_cons]
    by_cases hc : c < 0x20
    · simp [escapeUnit, hc]; omega
    · simp [escapeUnit, hc]; omega

theorem utf16Cut_body (body : List Nat) (h : ∀ u ∈ body, 0x20 ≤ u) :
    utf16Cut (body ++ [0]) = body := by
  unfold utf16Cut
  induction body with
  | nil => simp
  | cons c t ih =>
    have hc : 0x20 ≤ c := h c (List.mem_cons_self c t)
    have hne : (c != 0) = true := by
      simp only [bne_iff_ne, ne_eq]
      omega
    rw [List.cons_append, List.takeWhile_cons, hne]
    simp only [if_true]
    rw [ih (fun u hu => h u (List.mem_cons_of_mem c hu))]

theorem count_zero_body (body : List Nat) (h : ∀ u ∈ body, 0x20 ≤ u) :
    (body ++ [0]).count 0 = 1 := by
  have h0 : body.count 0 = 0 := by
    rw [List.count_eq_zero]
    intro hmem
    have := h 0 hmem
    omega
  rw [List.count_append, h0]
  rfl

/-! ## Claims about `escape` -/

/-- C1: for every buffer and every length with `0 ≤ n ≤ len(name)`, `escape`
returns the images of the first `n` units in order (percent sign, `'0' + c/16`,
`'0' + c%16` for a unit below 0x20, the unit itself otherwise) followed by one 0
unit; `[0x05, 'A', 'B']` gives `['%','0','5','A','B', 0]` and `[0x1A]` gives
`['%','1',':', 0]`, third unit 0x3A. -/
theorem escape_contract :
    (∀ (name : List Nat) (n : Int), 0 ≤ n → n ≤ (name.length : Int) →
      escape name n = some (escapeSpec name n.toNat)) ∧
    escape [0x05, 0x41, 0x42] 3 = some [0x25, 0x30, 0x35, 0x41, 0x42, 0] ∧
    escape [0x1A] 1 = some [0x25, 0x31, 0x3A, 0] := by
  refine ⟨?_, by decide, by decide⟩
  intro name n h0 hn
  obtain ⟨m, rfl⟩ := Int.eq_ofNat_of_zero_le h0
  rw [Int.toNat_ofNat]
  exact escape_eq_spec name m (by omega)

theorem escape_contract_witness :
    (0 : Int) ≤ 2 ∧ (2 : Int) ≤ (([0x05, 0x1A, 0x42] : List Nat).length : Int) ∧
    escape [0x05, 0x1A, 0x42] 2 = some (escapeSpec [0x05, 0x1A, 0x42] (2 : Int).toNat) :=
  ⟨by decide, by decide, escape_contract.1 [0x05, 0x1A, 0x42] 2 (by decide) (by decide)⟩

/-- C2: a sequence with no unit below 0x20 round-trips: escaping it over its
whole length gives the sequence plus the terminator, removing the terminator
gives the sequence back, and escaping that again (the bare sequence, or the
terminated buffer with the terminator excluded from the length) gives the same
result. -/
theorem escape_printable_roundtrip (s : List Nat) (h : ∀ u ∈ s, 0x20 ≤ u) :
    escape s (s.length : Int) = some (s ++ [0]) ∧
    (s ++ [0]).dropLast = s ∧
    escape (s ++ [0]).dropLast ((s ++ [0]).dropLast.length : Int) = some (s ++ [0]) ∧
    escape (s ++ [0]) (s.length : Int) = some (s ++ [0]) := by
  have h1 : escape s (s.length : Int) = some (s ++ [0]) := by
    rw [escape_eq_spec s s.length (le_refl _)]
    simp [escapeSpec, flatMap_escapeUnit_printable s h]
  have h2 : (s ++ [0]).dropLast = s := by simp
  refine ⟨h1, h2, ?_, ?_⟩
  · rw [h2]; exact h1
  · rw [escape_eq_spec (s ++ [0]) s.length (by simp)]
    simp [escapeSpec, flatMap_escapeUnit_printable s h]

theorem escape_printable_roundtrip_witness :
    (∀ u ∈ ([0x42, 0x25, 0x20] : List Nat), 0x20 ≤ u) ∧
    escape [0x42, 0x25, 0x20] 3 = some [0x42, 0x25, 0x20, 0] :=
  ⟨by decide, (escape_printable_roundtrip [0x42, 0x25, 0x20] (by decide)).1⟩

/-- C9: for `0 ≤ n ≤ len(name)` the output of `escape` is a body whose units
are all at least 0x20 followed by one 0 unit, so it holds exactly one 0 unit,
at its end; its length is `n + 2*k + 1` with `k` the number of units below 0x20
among the first `n`; and the cut at the first 0 unit made by the string
conversion in `GetBatteryUniqueId` returns the whole body, whatever 0 units the
raw identifier holds. -/
theorem escape_single_terminator (name : List Nat) (n : Nat) (h : n ≤ name.length) :
    ∃ body : List Nat,
      escape name (n : Int) = some (body ++ [0]) ∧
      (∀ u ∈ body, 0x20 ≤ u) ∧
      (body ++ [0]).getLast? = some 0 ∧
      (body ++ [0]).count 0 = 1 ∧
      (body ++ [0]).length = n + 2 * (name.take n).countP (fun c => decide (c < 0x20)) + 1 ∧
      utf16Cut (body ++ [0]) = body ∧
      (utf16Cut (body ++ [0])).length + 1 = (body ++ [0]).length ∧
      (∀ numOutBytes : Nat, ((numOutBytes / 2 : Nat) : Int) - 1 = (n : Int) →
        uniqueIdString name numOutBytes = some body) := by
  have hb := flatMap_escapeUnit_ge (name.take n)
  have hesc := escape_eq_spec name n h
  refine ⟨(name.take n).flatMap escapeUnit, hesc, hb, by simp,
    count_zero_body _ hb, ?_, utf16Cut_body _ hb, ?_, ?_⟩
  · rw [List.length_append, flatMap_escapeUnit_length, List.length_take]
    simp [Nat.min_eq_left h]
  · rw [utf16Cut_body _ hb]
    simp
  · intro numOutBytes hn
    unfold uniqueIdString
    rw [hn, hesc]
    simp only [escapeSpec, Option.map_some']
    rw [utf16Cut_body _ hb]

theorem escape_single_terminator_witness :
    3 ≤ ([0x00, 0x41, 0x1F] : List Nat).length ∧
    ∃ body : List Nat,
      escape [0x00, 0x41, 0x1F] ((3 : Nat) : Int) = some (body ++ [0]) ∧
      (∀ u ∈ body, 0x20 ≤ u) ∧
      (body ++ [0]).getLast? = some 0 ∧
      (body ++ [0]).count 0 = 1 ∧
      (body ++ [0]).length
        = 3 + 2 * (([0x00, 0x41, 0x1F] : List Nat).take 3).countP (fun c => decide (c < 0x20)) + 1 ∧
      utf16Cut (body ++ [0]) = body ∧
      (utf16Cut (body ++ [0])).length + 1 = (body ++ [0]).length ∧
      (∀ numOutBytes : Nat, ((numOutBytes / 2 : Nat) : Int) - 1 = ((3 : Nat) : Int) →
        uniqueIdString [0x00, 0x41, 0x1F] numOutBytes = some body) :=
  ⟨by decide, escape_single_terminator [0x00, 0x41, 0x1F] 3 (by decide)⟩

/-! ## Claims about constants, conversion and layout -/

/-- C3: read over exact rational arithmetic, `TemperatureToCelcius k10` is
`k10/10 - 273.16` for every raw value, it is a total function, and at 2982 it
is 25.04. -/
theorem temperature_exact :
    (∀ k10 : Nat, TemperatureToCelcius k10 = (k10 : ℚ) / 10 - 273.16) ∧
    TemperatureToCelcius 2982 = 25.04 := by
  constructor
  · intro k10
    unfold TemperatureToCelcius
    ring
  · unfold TemperatureToCelcius
    norm_num

/-- C8: the three control codes follow the one encoding with device type 0x29,
access 1 and method 0, have the values 0x00294040, 0x00294044 and 0x0029404C,
are below 2^32 and are pairwise distinct. -/
theorem ioctl_codes :
    IOCTL_BATTERY_QUERY_TAG = ctlCode 0x29 1 0x10 0 ∧
    IOCTL_BATTERY_QUERY_INFORMATION = ctlCode 0x29 1 0x11 0 ∧
    IOCTL_BATTERY_QUERY_STATUS = ctlCode 0x29 1 0x13 0 ∧
    IOCTL_BATTERY_QUERY_TAG = 0x00294040 ∧
    IOCTL_BATTERY_QUERY_INFORMATION = 0x00294044 ∧
    IOCTL_BATTERY_QUERY_STATUS = 0x0029404C ∧
    IOCTL_BATTERY_QUERY_TAG < 2 ^ 32 ∧
    IOCTL_BATTERY_QUERY_INFORMATION < 2 ^ 32 ∧
    IOCTL_BATTERY_QUERY_STATUS < 2 ^ 32 ∧
    IOCTL_BATTERY_QUERY_TAG ≠ IOCTL_BATTERY_QUERY_INFORMATION ∧
    IOCTL_BATTERY_QUERY_TAG ≠ IOCTL_BATTERY_QUERY_STATUS ∧
    IOCTL_BATTERY_QUERY_INFORMATION ≠ IOCTL_BATTERY_QUERY_STATUS := by
  decide

/-- C6, as stated, fails: the declared widths of `BATTERY_INFORMATION` do
not add up to 40 and the number of 32-bit fields after the chemistry code is
not five. -/
theorem battery_information_not_40 :
    packedSize BATTERY_INFORMATION_fields ≠ 40 ∧
    (int32FieldsAfter "Chemistry" BATTERY_INFORMATION_fields).length ≠ 5 := by
  decide

/-- C6, amended: `BATTERY_INFORMATION` is 36 bytes, with or without the
compiler's alignment rules: a 32-bit capability-flags field, a technology
byte, 3 reserved bytes, a 4-byte chemistry code, then six 32-bit fields. -/
theorem battery_information_layout :
    packedSize BATTERY_INFORMATION_fields = 36 ∧
    sizeofStruct BATTERY_INFORMATION_fields = 36 ∧
    (BATTERY_INFORMATION_fields.take 4).map (fun f => f.2)
      = [FieldType.int32, FieldType.byte, FieldType.bytes 3, FieldType.bytes 4] ∧
    int32FieldsAfter "Chemistry" BATTERY_INFORMATION_fields
      = ["DesignedCapacity", "FullChargedCapacity", "DefaultAlert1", "DefaultAlert2",
         "CriticalBias", "CycleCount"] ∧
    (int32FieldsAfter "Chemistry" BATTERY_INFORMATION_fields).length = 6 := by
  decide

/-! ## Handle acquisition -/

theorem getBatteryHandle_ok (env : Env) (w w1 : World) (index h : Nat)
    (hget : getBatteryHandle env w index = (.ok h, w1)) :
    (env.classDevsW w).r1 ≠ 0 ∧
      w1.openHandles = h :: (env.classDevsW w).r1 :: w.openHandles := by
  unfold getBatteryHandle SetupDiGetClassDevs at hget
  by_cases hr : (env.classDevsW w).r1 = 0
  · simp [hr] at hget
  · simp only [hr, if_false] at hget
    split at hget
    · simp at hget
    · split at hget
      · simp at hget
      · split at hget
        · simp at hget
        · simp only [Prod.mk.injEq, Except.ok.injEq] at hget
          obtain ⟨h1, h2⟩ := hget
          subst h1
          subst h2
          exact ⟨hr, rfl⟩

theorem getBatteryHandle_error (env : Env) (w w1 : World) (index e : Nat)
    (hget : getBatteryHandle env w index = (.error e, w1)) :
    ((env.classDevsW w).r1 = 0 ∧ w1 = w) ∨
      ((env.classDevsW w).r1 ≠ 0 ∧ w1.openHandles = (env.classDevsW w).r1 :: w.openHandles) := by
  unfold getBatteryHandle SetupDiGetClassDevs at hget
  by_cases hr : (env.classDevsW w).r1 = 0
  · left
    simp only [hr, if_true, Prod.mk.injEq] at hget
    exact ⟨hr, hget.2.symm⟩
  · right
    refine ⟨hr, ?_⟩
    simp only [hr, if_false] at hget
    split at hget
    · simp only [Prod.mk.injEq] at hget
      rw [← hget.2]; rfl
    · split at hget
      · simp only [Prod.mk.injEq] at hget
        rw [← hget.2]; rfl
      · split at hget
        · simp only [Prod.mk.injEq] at hget
          rw [← hget.2]; rfl
        · simp at hget

/-- C4: when the device open succeeds and the tag handshake fails,
`OpenBatteryHandle` returns the handshake's error and no `Handle`, and the
battery handle that was the most recent open is closed (one open fewer of it,
none at all if it was held once); when the handshake succeeds the `Handle`
returned holds the opened handle and the tag, and the handle stays open. -/
theorem open_battery_handle_handshake (env : Env) (w w1 : World) (index : Int) (h : Nat)
    (hget : getBatteryHandle env w (index % 2 ^ 32).toNat = (.ok h, w1)) :
    (∀ e, getBatteryTag env w1 h = .error e →
      OpenBatteryHandle env w index = (.error e, CloseHandle w1 h) ∧
      w1.openHandles = h :: (CloseHandle w1 h).openHandles ∧
      (CloseHandle w1 h).openHandles.count h + 1 = w1.openHandles.count h ∧
      (w1.openHandles.count h = 1 → h ∉ (CloseHandle w1 h).openHandles)) ∧
    (∀ tag, getBatteryTag env w1 h = .ok tag →
      OpenBatteryHandle env w index = (.ok { BatteryHandle := h, BatteryTag := tag }, w1) ∧
      h ∈ w1.openHandles) := by
  obtain ⟨_, hopen⟩ := getBatteryHandle_ok env w w1 _ h hget
  have hclose : (CloseHandle w1 h).openHandles = (env.classDevsW w).r1 :: w.openHandles := by
    simp [CloseHandle, hopen]
  constructor
  · intro e he
    refine ⟨?_, ?_, ?_, ?_⟩
    · simp only [OpenBatteryHandle, hget, he]
    · rw [hclose, hopen]
    · rw [hopen, hclose, List.count_cons_self]
    · intro hc
      rw [hopen, ← hclose, List.count_cons_self] at hc
      exact List.count_eq_zero.mp (by omega)
  · intro tag ht
    refine ⟨?_, ?_⟩
    · simp only [OpenBatteryHandle, hget, ht]
    · rw [hopen]
      exact List.mem_cons_self _ _

theorem open_battery_handle_handshake_witness :
    getBatteryHandle tagRejected { openHandles := [3] } ((0 : Int) % 2 ^ 32).toNat
      = (.ok 9, { openHandles := [9, 7, 3] }) ∧
    getBatteryTag tagRejected { openHandles := [9, 7, 3] } 9 = .error 31 ∧
    OpenBatteryHandle tagRejected { openHandles := [3] } 0
      = (.error 31, CloseHandle { openHandles := [9, 7, 3] } 9) ∧
    (CloseHandle { openHandles := [9, 7, 3] } 9).openHandles = [7, 3] :=
  ⟨rfl, rfl,
    ((open_battery_handle_handshake tagRejected { openHandles := [3] } { openHandles := [9, 7, 3] }
      0 9 rfl).1 31 rfl).1, rfl⟩

/-- C5, as stated, fails: with the enumeration handle 7 obtained and the
interface enumeration failing, `getBatteryHandle` and `OpenBatteryHandle` return
the error while handle 7, not open before the call, is still open. -/
theorem enumeration_handle_left_open :
    (enumFails.classDevsW { openHandles := [] }).r1 = 7 ∧
    getBatteryHandle enumFails { openHandles := [] } 0 = (.error 259, { openHandles := [7] }) ∧
    OpenBatteryHandle enumFails { openHandles := [] } 0 = (.error 259, { openHandles := [7] }) ∧
    7 ∉ ({ openHandles := [] } : World).openHandles ∧
    7 ∈ (OpenBatteryHandle enumFails { openHandles := [] } 0).2.openHandles := by
  refine ⟨rfl, rfl, rfl, by decide, by decide⟩

/-- C5, amended: when `getBatteryHandle` or `OpenBatteryHandle` returns an
error after the enumeration handle has been obtained, the handles open on
return are those open before the call plus the enumeration handle: a battery
handle opened by `CreateFile` is not left open, the enumeration handle is. -/
theorem acquisition_failure_open_set (env : Env) (w w1 : World) (e : Nat)
    (hd : (env.classDevsW w).r1 ≠ 0) :
    (∀ index : Nat, getBatteryHandle env w index = (.error e, w1) →
      w1.openHandles = (env.classDevsW w).r1 :: w.openHandles) ∧
    (∀ index : Int, OpenBatteryHandle env w index = (.error e, w1) →
      w1.openHandles = (env.classDevsW w).r1 :: w.openHandles) := by
  constructor
  · intro index hget
    rcases getBatteryHandle_error env w w1 index e hget with ⟨h0, _⟩ | ⟨_, h1⟩
    · exact absurd h0 hd
    · exact h1
  · intro index hopen
    unfold OpenBatteryHandle at hopen
    split at hopen
    · rename_i err w2 hget
      simp only [Prod.mk.injEq, Except.error.injEq] at hopen
      obtain ⟨h1, h2⟩ := hopen
      subst h1
      subst h2
      rcases getBatteryHandle_error env w _ _ _ hget with ⟨h0, _⟩ | ⟨_, h1⟩
      · exact absurd h0 hd
      · exact h1
    · rename_i handle w2 hget
      obtain ⟨_, hopen2⟩ := getBatteryHandle_ok env w w2 _ handle hget
      split at hopen
      · simp only [Prod.mk.injEq, Except.error.injEq] at hopen
        rw [← hopen.2]
        simp [CloseHandle, hopen2]
      · simp at hopen

theorem acquisition_failure_open_set_witness :
    (tagRejected.classDevsW { openHandles := [3] }).r1 ≠ 0 ∧
    OpenBatteryHandle tagRejected { openHandles := [3] } 0 = (.error 31, { openHandles := [7, 3] }) ∧
    ({ openHandles := [7, 3] } : World).openHandles
      = (tagRejected.classDevsW { openHandles := [3] }).r1 :: [3] :=
  ⟨by decide, rfl,
    (acquisition_failure_open_set tagRejected { openHandles := [3] } { openHandles := [7, 3] } 31
      (by decide)).2 0 rfl⟩

/-! ## Collection -/

/-- What one pass of the loop body writes for its own battery: the value set
on the vector `n`, or `none` when that vector is not touched. -/
theorem collectOnePure_apply (env : Env) (w : World) (g : Gauges) (e : List Nat × Handle)
    (n : String) (i : List Nat) :
    collectOnePure env w g e n i
      = if i = e.1 then
          (match collectOnePure env w noGauges e n e.1 with
           | some v => some v
           | none => g n i)
        else g n i := by
  unfold collectOnePure
  cases GetBatteryInfo env w e.2 <;> cases GetBatteryStatus env w e.2 <;>
    cases GetBatteryTemperature env w e.2 <;>
    simp only [Gauges.put, noGauges] <;>
    by_cases hi : i = e.1 <;> simp only [hi, and_true, and_false, if_true, if_false] <;>
    split_ifs <;> rfl

theorem collectOnePure_other (env : Env) (w : World) (g : Gauges) (e : List Nat × Handle)
    (n : String) (i : List Nat) (hi : i ≠ e.1) : collectOnePure env w g e n i = g n i := by
  rw [collectOnePure_apply, if_neg hi]

theorem collectOnePure_congr (env : Env) (w : World) (g g1 : Gauges) (e : List Nat × Handle)
    (n : String) (hg : g1 n e.1 = g n e.1) :
    collectOnePure env w g1 e n e.1 = collectOnePure env w g e n e.1 := by
  rw [collectOnePure_apply env w g1, collectOnePure_apply env w g, hg]

theorem collectBatteryPure_not_mem (env : Env) (w : World) (reg : Registry) (n : String)
    (id : List Nat) :
    ∀ g : Gauges, id ∉ reg.map Prod.fst → collectBatteryPure env w reg g n id = g n id := by
  induction reg with
  | nil => intro g _; rfl
  | cons e t ih =>
    intro g hid
    simp only [List.map_cons, List.mem_cons, not_or] at hid
    show collectBatteryPure env w t (collectOnePure env w g e) n id = g n id
    rw [ih _ hid.2, collectOnePure_other env w g e n id hid.1]

theorem collectBatteryPure_mem (env : Env) (w : World) (reg : Registry) (n : String)
    (id : List Nat) (h : Handle) :
    ∀ g : Gauges, (reg.map Prod.fst).Nodup → (id, h) ∈ reg →
      collectBatteryPure env w reg g n id = collectOnePure env w g (id, h) n id := by
  induction reg with
  | nil => intro g _ hmem; simp at hmem
  | cons e t ih =>
    intro g hnd hmem
    simp only [List.map_cons, List.nodup_cons] at hnd
    show collectBatteryPure env w t (collectOnePure env w g e) n id = _
    rcases List.mem_cons.mp hmem with heq | ht
    · subst heq
      exact collectBatteryPure_not_mem env w t n id _ hnd.1
    · have hne : id ≠ e.1 := by
        intro hc
        apply hnd.1
        rw [← hc]
        exact List.mem_map_of_mem Prod.fst ht
      rw [ih _ hnd.2 ht]
      exact collectOnePure_congr env w g _ (id, h) n (collectOnePure_other env w g e n id hne)

theorem collectOne_valid (env : Env) (w : World) (g : Gauges) (e : List Nat × Handle)
    (hv : validLabel e.1 = true) :
    collectOne env w g e = some (collectOnePure env w g e) := by
  unfold collectOne collectOnePure
  rcases h1 : GetBatteryInfo env w e.2 with a | a <;>
    rcases h2 : GetBatteryStatus env w e.2 with b | b <;>
    rcases h3 : GetBatteryTemperature env w e.2 with c | c <;>
    simp [Gauges.set, hv, h1, h2, h3]

theorem collectBattery_valid (env : Env) (w : World) (reg : Registry) :
    ∀ g : Gauges, (∀ x ∈ reg, validLabel x.1 = true) →
      collectBattery env w reg g = some (collectBatteryPure env w reg g) := by
  induction reg with
  | nil => intro g _; rfl
  | cons e t ih =>
    intro g hv
    have he : validLabel e.1 = true := hv e (List.mem_cons_self e t)
    have ht : ∀ x ∈ t, validLabel x.1 = true := fun x hx => hv x (List.mem_cons_of_mem e hx)
    rw [collectBattery, collectOne_valid env w g e he]
    exact ih _ ht

theorem collectBatteryPure_status_failure (env : Env) (w : World) (reg : Registry) (g : Gauges)
    (id : List Nat) (h : Handle) (info : BATTERY_INFORMATION) (e : Nat)
    (hnd : (reg.map Prod.fst).Nodup) (hmem : (id, h) ∈ reg)
    (hinfo : GetBatteryInfo env w h = .ok info)
    (hstatus : GetBatteryStatus env w h = .error e) :
    collectBatteryPure env w reg g "battery_designed_capacity" id
      = some ((info.DesignedCapacity : ℚ) / 1000) ∧
    collectBatteryPure env w reg g "battery_full_charged_capacity" id
      = some ((info.FullChargedCapacity : ℚ) / 1000) ∧
    collectBatteryPure env w reg g "battery_cycle" id = some (info.CycleCount : ℚ) ∧
    collectBatteryPure env w reg g "battery_power_state" id = g "battery_power_state" id ∧
    collectBatteryPure env w reg g "battery_available" id = g "battery_available" id ∧
    collectBatteryPure env w reg g "battery_voltage" id = g "battery_voltage" id ∧
    collectBatteryPure env w reg g "battery_rate" id = g "battery_rate" id ∧
    (∀ temp, GetBatteryTemperature env w h = .ok temp →
      collectBatteryPure env w reg g "battery_temperature" id = some temp) ∧
    (∀ id2 h2 info2, (id2, h2) ∈ reg → GetBatteryInfo env w h2 = .ok info2 →
      collectBatteryPure env w reg g "battery_designed_capacity" id2
        = some ((info2.DesignedCapacity : ℚ) / 1000) ∧
      collectBatteryPure env w reg g "battery_full_charged_capacity" id2
        = some ((info2.FullChargedCapacity : ℚ) / 1000) ∧
      collectBatteryPure env w reg g "battery_cycle" id2 = some (info2.CycleCount : ℚ)) ∧
    (∀ id2 h2 status2, (id2, h2) ∈ reg → GetBatteryStatus env w h2 = .ok status2 →
      collectBatteryPure env w reg g "battery_power_state" id2 = some (status2.PowerState : ℚ) ∧
      collectBatteryPure env w reg g "battery_available" id2
        = some ((status2.Capacity : ℚ) / 1000) ∧
      collectBatteryPure env w reg g "battery_voltage" id2 = some ((status2.Voltage : ℚ) / 1000) ∧
      collectBatteryPure env w reg g "battery_rate" id2 = some ((status2.Rate : ℚ) / 1000)) ∧
    (∀ id2 h2 temp2, (id2, h2) ∈ reg → GetBatteryTemperature env w h2 = .ok temp2 →
      collectBatteryPure env w reg g "battery_temperature" id2 = some temp2) := by
  have key : ∀ (n : String) (id2 : List Nat) (h2 : Handle), (id2, h2) ∈ reg →
      collectBatteryPure env w reg g n id2 = collectOnePure env w g (id2, h2) n id2 :=
    fun n id2 h2 hm => collectBatteryPure_mem env w reg n id2 h2 g hnd hm
  have hinfo2 : ∀ id2 h2 info2, (id2, h2) ∈ reg → GetBatteryInfo env w h2 = .ok info2 →
      collectBatteryPure env w reg g "battery_designed_capacity" id2
        = some ((info2.DesignedCapacity : ℚ) / 1000) ∧
      collectBatteryPure env w reg g "battery_full_charged_capacity" id2
        = some ((info2.FullChargedCapacity : ℚ) / 1000) ∧
      collectBatteryPure env w reg g "battery_cycle" id2 = some (info2.CycleCount : ℚ) := by
    intro id2 h2 info2 hm hi
    rw [key _ id2 h2 hm, key _ id2 h2 hm, key _ id2 h2 hm]
    unfold collectOnePure
    simp only [hi]
    refine ⟨?_, ?_, ?_⟩ <;>
      cases GetBatteryStatus env w h2 <;> cases GetBatteryTemperature env w h2 <;>
      simp [Gauges.put] <;> norm_num
  have htemp2 : ∀ id2 h2 temp2, (id2, h2) ∈ reg → GetBatteryTemperature env w h2 = .ok temp2 →
      collectBatteryPure env w reg g "battery_temperature" id2 = some temp2 := by
    intro id2 h2 temp2 hm ht
    rw [key _ id2 h2 hm]
    unfold collectOnePure
    simp only [ht]
    simp [Gauges.put]
  obtain ⟨hd, hf, hc⟩ := hinfo2 id h info hmem hinfo
  refine ⟨hd, hf, hc, ?_, ?_, ?_, ?_, fun temp ht => htemp2 id h temp hmem ht, hinfo2, ?_,
    htemp2⟩
  · rw [key _ id h hmem]
    unfold collectOnePure
    simp only [hinfo, hstatus]
    cases GetBatteryTemperature env w h <;> simp [Gauges.put]
  · rw [key _ id h hmem]
    unfold collectOnePure
    simp only [hinfo, hstatus]
    cases GetBatteryTemperature env w h <;> simp [Gauges.put]
  · rw [key _ id h hmem]
    unfold collectOnePure
    simp only [hinfo, hstatus]
    cases GetBatteryTemperature env w h <;> simp [Gauges.put]
  · rw [key _ id h hmem]
    unfold collectOnePure
    simp only [hinfo, hstatus]
    cases GetBatteryTemperature env w h <;> simp [Gauges.put]
  · intro id2 h2 status2 hm hs
    rw [key _ id2 h2 hm, key _ id2 h2 hm, key _ id2 h2 hm, key _ id2 h2 hm]
    unfold collectOnePure
    simp only [hs]
    refine ⟨?_, ?_, ?_, ?_⟩ <;>
      cases GetBatteryInfo env w h2 <;> cases GetBatteryTemperature env w h2 <;>
      simp [Gauges.put] <;> norm_num

set_option maxRecDepth 1000000

/-- C7, as stated, fails, in two ways.  With the four status gauges of battery
`"A"` set by an earlier cycle, a cycle whose status query fails and whose
information query succeeds leaves `battery_power_state`, `battery_available`,
`battery_voltage` and `battery_rate` present for that id.  And for a battery
registered under an identifier that is not valid UTF-8 (raw identifier 0xD800)
the cycle panics at the first `With`, so no gauge is set. -/
theorem status_failure_not_as_claimed :
    GetBatteryInfo statusFails { openHandles := [] } { BatteryHandle := 9, BatteryTag := 5 }
      = .ok sampleInfo ∧
    GetBatteryStatus statusFails { openHandles := [] } { BatteryHandle := 9, BatteryTag := 5 }
      = .error 31 ∧
    (collectBattery statusFails { openHandles := [] }
      [([0x41], { BatteryHandle := 9, BatteryTag := 5 })] staleGauges).map
        (fun g1 => (g1 "battery_power_state" [0x41], g1 "battery_available" [0x41],
          g1 "battery_voltage" [0x41], g1 "battery_rate" [0x41]))
      = some (some 1, some 40, some 12, some (-5)) ∧
    (discoverBatteries surrogateId { openHandles := [] } []).map Prod.snd
      = some [([0xD800], { BatteryHandle := 9, BatteryTag := 5 })] ∧
    GetBatteryInfo surrogateId { openHandles := [] } { BatteryHandle := 9, BatteryTag := 5 }
      = .ok sampleInfo ∧
    GetBatteryStatus surrogateId { openHandles := [] } { BatteryHandle := 9, BatteryTag := 5 }
      = .error 31 ∧
    (collectBattery surrogateId { openHandles := [] }
      [([0xD800], { BatteryHandle := 9, BatteryTag := 5 })] noGauges).isNone = true := by
  refine ⟨rfl, rfl, by decide, by rfl, rfl, rfl, by rfl⟩

/-- C7, amended: when every registered identifier is valid UTF-8, for a
registered battery whose status query fails and whose information query
succeeds the cycle completes, sets `battery_designed_capacity` and
`battery_full_charged_capacity` (raw value / 1000) and `battery_cycle` for its
id and does not write `battery_power_state`, `battery_available`,
`battery_voltage` and `battery_rate` for that id: each keeps the state it had
before the cycle.  The temperature is still collected when its query succeeds,
and so is every other battery whose queries succeed. -/
theorem collect_status_failure (env : Env) (w : World) (reg : Registry) (g : Gauges)
    (id : List Nat) (h : Handle) (info : BATTERY_INFORMATION) (e : Nat)
    (hvalid : ∀ x ∈ reg, validLabel x.1 = true)
    (hnd : (reg.map Prod.fst).Nodup) (hmem : (id, h) ∈ reg)
    (hinfo : GetBatteryInfo env w h = .ok info)
    (hstatus : GetBatteryStatus env w h = .error e) :
    ∃ g1 : Gauges, collectBattery env w reg g = some g1 ∧
    g1 "battery_designed_capacity" id = some ((info.DesignedCapacity : ℚ) / 1000) ∧
    g1 "battery_full_charged_capacity" id = some ((info.FullChargedCapacity : ℚ) / 1000) ∧
    g1 "battery_cycle" id = some (info.CycleCount : ℚ) ∧
    g1 "battery_power_state" id = g "battery_power_state" id ∧
    g1 "battery_available" id = g "battery_available" id ∧
    g1 "battery_voltage" id = g "battery_voltage" id ∧
    g1 "battery_rate" id = g "battery_rate" id ∧
    (∀ temp, GetBatteryTemperature env w h = .ok temp →
      g1 "battery_temperature" id = some temp) ∧
    (∀ id2 h2 info2, (id2, h2) ∈ reg → GetBatteryInfo env w h2 = .ok info2 →
      g1 "battery_designed_capacity" id2 = some ((info2.DesignedCapacity : ℚ) / 1000) ∧
      g1 "battery_full_charged_capacity" id2
        = some ((info2.FullChargedCapacity : ℚ) / 1000) ∧
      g1 "battery_cycle" id2 = some (info2.CycleCount : ℚ)) ∧
    (∀ id2 h2 status2, (id2, h2) ∈ reg → GetBatteryStatus env w h2 = .ok status2 →
      g1 "battery_power_state" id2 = some (status2.PowerState : ℚ) ∧
      g1 "battery_available" id2 = some ((status2.Capacity : ℚ) / 1000) ∧
      g1 "battery_voltage" id2 = some ((status2.Voltage : ℚ) / 1000) ∧
      g1 "battery_rate" id2 = some ((status2.Rate : ℚ) / 1000)) ∧
    (∀ id2 h2 temp2, (id2, h2) ∈ reg → GetBatteryTemperature env w h2 = .ok temp2 →
      g1 "battery_temperature" id2 = some temp2) :=
  ⟨collectBatteryPure env w reg g, collectBattery_valid env w reg g hvalid,
    collectBatteryPure_status_failure env w reg g id h info e hnd hmem hinfo hstatus⟩

theorem collect_status_failure_witness :
    (∀ x ∈ ([([0x41], { BatteryHandle := 9, BatteryTag := 5 })] : Registry),
      validLabel x.1 = true) ∧
    (([([0x41], { BatteryHandle := 9, BatteryTag := 5 })] : Registry).map Prod.fst).Nodup ∧
    GetBatteryInfo statusFails { openHandles := [] } { BatteryHandle := 9, BatteryTag := 5 }
      = .ok sampleInfo ∧
    GetBatteryStatus statusFails { openHandles := [] } { BatteryHandle := 9, BatteryTag := 5 }
      = .error 31 ∧
    ∃ g1 : Gauges,
      collectBattery statusFails { openHandles := [] }
        [([0x41], { BatteryHandle := 9, BatteryTag := 5 })] noGauges = some g1 ∧
      g1 "battery_designed_capacity" [0x41] = some ((sampleInfo.DesignedCapacity : ℚ) / 1000) ∧
      g1 "battery_power_state" [0x41] = noGauges "battery_power_state" [0x41] :=
  have hw := collect_status_failure statusFails { openHandles := [] }
    [([0x41], { BatteryHandle := 9, BatteryTag := 5 })] noGauges [0x41]
    { BatteryHandle := 9, BatteryTag := 5 } sampleInfo 31 (by decide) (by decide) (by decide)
    rfl rfl
  ⟨by decide, by decide, rfl, rfl,
    hw.elim fun g1 hg => ⟨g1, hg.1, hg.2.1, hg.2.2.2.2.1⟩⟩

/-! ## Discovery -/

/-- C10: `escape` is not injective: the one-unit sequence `[0x05]` and the
three-unit sequence `['%','0','5']` have the same escaped output.  On a system
whose two batteries report these raw identifiers, discovery registers the
first under the key `%05` and the second then overwrites it: the registry ends
with one entry, holding the second handle. -/
theorem escape_collision :
    ([0x05] : List Nat) ≠ [0x25, 0x30, 0x35] ∧
    escape [0x05] 1 = some [0x25, 0x30, 0x35, 0] ∧
    escape [0x25, 0x30, 0x35] 3 = some [0x25, 0x30, 0x35, 0] ∧
    ¬ Function.Injective (fun s : List Nat => escape s (s.length : Int)) ∧
    GetBatteryUniqueId twoBatteries { openHandles := [] }
      { BatteryHandle := 2048, BatteryTag := 48 } = some (.ok [0x25, 0x30, 0x35]) ∧
    GetBatteryUniqueId twoBatteries { openHandles := [] }
      { BatteryHandle := 2049, BatteryTag := 49 } = some (.ok [0x25, 0x30, 0x35]) ∧
    (discoverLoop twoBatteries 1 0 ({ openHandles := [] }, [])).map Prod.snd
      = some [([0x25, 0x30, 0x35], { BatteryHandle := 2048, BatteryTag := 48 })] ∧
    (discoverBatteries twoBatteries { openHandles := [] } []).map Prod.snd
      = some [([0x25, 0x30, 0x35], { BatteryHandle := 2049, BatteryTag := 49 })] := by
  refine ⟨by decide, by decide, by decide, ?_, by rfl, by rfl, by rfl, by rfl⟩
  intro hinj
  have hne : ([0x05] : List Nat) ≠ [0x25, 0x30, 0x35] := by decide
  exact hne (hinj (by decide))

end Battery
